import Mathlib

/-!
Verification of the Zeron browser (src/main.py) against its natural-language
specification.  The file gives a shallow embedding of the data model and the
operations the claims are about, translated from the Python source, followed by
theorems settling each claim.

Conventions of the embedding:
* A Python string is a `String`; Python slicing/`in`/`startswith`/`strip` are
  embedded as explicit functions on the underlying character lists.
* The filesystem outcome of reading and JSON-parsing a file is abstracted as
  `Option (Except String α)`: `none` means the file is absent, `some (.error e)`
  means reading or parsing raised an exception, `some (.ok doc)` means parsing
  succeeded with document `doc`.  A Python `try/except` that swallows the
  exception becomes a total function on that type.
* A JSON dictionary (the settings document) is an association list
  `List (String × SVal)`.
* The per-window UI state that the tab claims are about (tab sequence, active
  index, URL bar) is a structure `ZeronMain`; the Qt widgets are erased and
  only the data they carry remains.  `QTabWidget.removeTab` adjusts the
  current index per Qt semantics (default `selectionBehaviorOnRemove`,
  `SelectRightTab`); an empty tab widget has current index `-1`.
-/

namespace Zeron

/-- Python `a or b` on strings: the left operand unless it is falsy (the empty
string), in which case the right operand.  Used by `_on_load_finished`
(`view.title() or view.url().toString()`) and by `add_bookmark_current`. -/
def py_or (a b : String) : String := if a = "" then b else a

/-- Python slice `s[:n]` on a string: its first `n` characters. -/
def pyTake (s : String) (n : Nat) : String := String.mk (s.data.take n)

/-- Python `c in s` for a single character `c`. -/
def py_contains_char (s : String) (c : Char) : Bool := s.data.contains c

/-- Python `s.startswith(p)`. -/
def py_startswith (s p : String) : Bool := p.data.isPrefixOf s.data

/-- Python `r in h` substring containment on strings: `r` occurs contiguously
in `h`, i.e. `r` is a prefix of some suffix of `h`. -/
def py_substr (r h : String) : Bool := h.data.tails.any (fun t => r.data.isPrefixOf t)

/-- Python `s.strip()`: drop whitespace from both ends. -/
def py_strip (s : String) : String :=
  String.mk (((s.data.dropWhile Char.isWhitespace).reverse.dropWhile Char.isWhitespace).reverse)

/-- Python `s.replace(' ', '+')` from `load_from_urlbar` (src/main.py line 433). -/
def py_replace_space (s : String) : String :=
  String.mk (s.data.map (fun c => if c = ' ' then '+' else c))

/-- Embedding of `load_json(path, default)` (src/main.py lines 62-69).  The
outcome of reading/parsing the file at `path` is abstracted as the `file`
argument.  The Python body wraps everything in `try/except Exception`, and
`return default` follows the handler, so the caller receives the parsed
document when parsing succeeds and `default` in every other case; no exception
escapes (the embedding is a total function). -/
def load_json {α : Type} (file : Option (Except String α)) (default : α) : α :=
  match file with
  | none => default
  | some (Except.error _) => default
  | some (Except.ok doc) => doc

/-- Values occurring in the settings document: strings and booleans. -/
inductive SVal where
  | s (v : String)
  | b (v : Bool)
deriving DecidableEq

/-- `DEFAULT_SETTINGS` (src/main.py lines 54-59) as an association list. -/
def DEFAULT_SETTINGS : List (String × SVal) :=
  [("theme", SVal.s "fluent_dark"),
   ("home_page", SVal.s "https://www.google.com"),
   ("show_bookmark_bar", SVal.b true),
   ("force_white_text", SVal.b false)]

/-- Python `d.get(k, dflt)` on an association-list dictionary. -/
def dictGet (d : List (String × SVal)) (k : String) (dflt : SVal) : SVal :=
  (d.lookup k).getD dflt

/-- `SETTINGS = load_json(SETTINGS_FILE, DEFAULT_SETTINGS.copy())`
(src/main.py line 80): whatever parses from disk is taken wholesale; the
defaults are used only when the file is absent or unparsable. -/
def loadSettings (file : Option (Except String (List (String × SVal)))) :
    List (String × SVal) :=
  load_json file DEFAULT_SETTINGS

/-- One browser tab: the data carried by a `QWebEngineView` page that the
claims mention (current URL and tab title). -/
structure Tab where
  url : String
  title : String
deriving DecidableEq

/-- The per-window state of `ZeronMain` relevant to the tab-lifecycle claims:
the ordered tab sequence held by the `QTabWidget`, its current (active) index
(`-1` when empty, as in Qt), and the text of the URL bar. -/
structure ZeronMain where
  tabs : List Tab
  current : Int
  urlbar : String
deriving DecidableEq

/-- Embedding of `ZeronMain.add_tab` (src/main.py lines 390-405): a new view is
appended to the tab widget with label "New", made current via
`setCurrentIndex`, and, when a `url` is given, navigated to it (which also
puts the URL into the URL bar via the `urlChanged` handler; with no `url` the
view's URL is the empty string). -/
def add_tab (z : ZeronMain) (url : Option String) : ZeronMain :=
  { tabs := z.tabs ++ [{ url := url.getD "", title := "New" }],
    current := (z.tabs.length : Int),
    urlbar := url.getD "" }

/-- Embedding of `ZeronMain.remove_tab` (src/main.py lines 407-411): indices
outside `[0, count)` are rejected, otherwise the tab at `index` is removed
from the strip and, once the fade-out animation completes, from the tab
widget.  The current-index adjustment is the one performed by
`QTabWidget.removeTab` (Qt default `SelectRightTab`): indices above the
removed one shift down; if the removed tab was current, the tab that moved
into its slot becomes current, or the new last tab when the removed tab was
last (`-1` when nothing remains).  There is no special case for the last
remaining tab. -/
def remove_tab (z : ZeronMain) (index : Int) : ZeronMain :=
  if index < 0 ∨ (z.tabs.length : Int) ≤ index then z
  else
    { tabs := z.tabs.eraseIdx index.toNat,
      current :=
        if index < z.current then z.current - 1
        else if index = z.current then
          (if index < ((z.tabs.eraseIdx index.toNat).length : Int) then index
           else ((z.tabs.eraseIdx index.toNat).length : Int) - 1)
        else z.current,
      urlbar := z.urlbar }

/-- Embedding of `ZeronMain.on_tab_switched` (src/main.py lines 418-423), the
`currentChanged` handler: when the tab widget has a view at `index`, the URL
bar is set to that view's URL (the button restyling is pure presentation and
is erased). -/
def on_tab_switched (z : ZeronMain) (index : Int) : ZeronMain :=
  if 0 ≤ index ∧ index < (z.tabs.length : Int) then
    { z with urlbar := (z.tabs.getD index.toNat { url := "", title := "" }).url }
  else z

/-- Embedding of `ZeronMain.switch_to_tab` (src/main.py lines 413-416): only
for `0 <= index < count` is `setCurrentIndex` called.  `QTabWidget`'s
`currentChanged` signal is emitted only when the current index actually
changes, so `on_tab_switched` fires just in that case; calling
`setCurrentIndex` with the already-current index stores the same value and
emits nothing, leaving the whole state (URL bar included) as it was. -/
def switch_to_tab (z : ZeronMain) (index : Int) : ZeronMain :=
  if 0 ≤ index ∧ index < (z.tabs.length : Int) then
    if index = z.current then z
    else on_tab_switched { z with current := index } index
  else z

/-- Embedding of the initial-tab creation in `ZeronMain.__init__`
(src/main.py line 387): starting from an empty window, exactly one tab is
opened at `home = SETTINGS.get("home_page", "https://www.google.com")`.  The
repository has no session persistence, so every startup takes this path. -/
def startup (home : String) : ZeronMain :=
  add_tab { tabs := [], current := -1, urlbar := "" } (some home)

/-- Embedding of the history part of `ZeronMain.on_view_url_changed`
(src/main.py lines 441-445): the navigated URL is inserted at position 0 of
the in-memory `HISTORY` list and the slice `HISTORY[:2000]` is written to
disk.  Returns (new in-memory list, written document).  The in-memory list is
not truncated. -/
def on_view_url_changed (hist : List String) (url : String) :
    List String × List String :=
  (url :: hist, (url :: hist).take 2000)

/-- Embedding of the history write in `main.on_exit` (src/main.py line 826):
`save_json(HISTORY_FILE, HISTORY)` writes the full in-memory list, with no
cap applied. -/
def on_exit_history (hist : List String) : List String := hist

/-- One bookmark entry `{"title": ..., "url": ...}`. -/
structure Bookmark where
  title : String
  url : String
deriving DecidableEq

/-- Embedding of `ZeronMain.add_bookmark_current` (src/main.py lines 569-577):
the entry `{title: view.title() or url, url}` is inserted at position 0 of the
in-memory `BOOKMARKS` list and the slice `BOOKMARKS[:150]` is written to disk.
Returns (new in-memory list, written document).  The in-memory list is not
truncated. -/
def add_bookmark_current (bms : List Bookmark) (pageTitle url : String) :
    List Bookmark × List Bookmark :=
  ({ title := py_or pageTitle url, url := url } :: bms,
   ({ title := py_or pageTitle url, url := url } :: bms).take 150)

/-- Embedding of the bookmark write in `main.on_exit` (src/main.py line 825):
`save_json(BOOKMARKS_FILE, BOOKMARKS)` writes the full in-memory list, with no
cap applied. -/
def on_exit_bookmarks (bms : List Bookmark) : List Bookmark := bms

/-- Embedding of the title handling in `ZeronMain._on_load_finished`
(src/main.py lines 555-566): the title is `view.title() or url`; the tab
widget label is `title[:46]` and the tab-strip button label is `title[:26]`,
plain slices with no ellipsis.  Returns (full title, tab-widget label,
tab-strip button label). -/
def on_load_finished_title (pageTitle url : String) : String × String × String :=
  (py_or pageTitle url,
   pyTake (py_or pageTitle url) 46,
   pyTake (py_or pageTitle url) 26)

/-- Embedding of `ZeronMain.load_from_urlbar` (src/main.py lines 429-439):
strip the URL-bar text; if empty do nothing; if it contains a space or no dot,
load a Google search for it with spaces turned into `+`; otherwise load it
verbatim when it starts with "http" and with "https://" prepended when it does
not.  Returns the URL handed to `setUrl`, or `none` when no load happens. -/
def load_from_urlbar (text : String) : Option String :=
  let txt := py_strip text
  if txt = "" then none
  else if py_contains_char txt ' ' || !(py_contains_char txt '.') then
    some ("https://www.google.com/search?q=" ++ py_replace_space txt)
  else if py_startswith txt "http" then some txt
  else some ("https://" ++ txt)

/-- The binary outcome of the ad-block decision. -/
inductive Verdict where
  | Allow
  | Block
deriving DecidableEq

namespace DomainMatcher

/-- Modelled from the spec: the ad-blocking request filter (`DomainMatcher`
and its `decide`, spec §4.1) has no implementation in src/main.py — no request
interceptor is installed anywhere in the source.  Following the spec's words:
the hostname extracted from the request URL is `none` when extraction fails,
in which case the verdict is Allow (fail-open); otherwise the verdict is Block
exactly when some rule of the block set is a substring of the hostname, with
no normalization applied. -/
def decide (hostname : Option String) (rules : List String) : Verdict :=
  match hostname with
  | none => Verdict.Allow
  | some h => if rules.any (fun r => py_substr r h) then Verdict.Block else Verdict.Allow

end DomainMatcher

end Zeron

namespace Zeron

/-- C1: for every hostname `h` and block-set `S`, `decide` returns Block iff
some rule of `S` is a substring of `h`; it returns Allow for the empty block
set, and Allow whenever hostname extraction failed, regardless of `S`. -/
theorem c1_decide_block_iff_substring (h : String) (S : List String) :
    (DomainMatcher.decide (some h) S = Verdict.Block ↔
      ∃ r ∈ S, py_substr r h = true) ∧
    DomainMatcher.decide (some h) [] = Verdict.Allow ∧
    DomainMatcher.decide none S = Verdict.Allow := by
  refine ⟨?_, rfl, rfl⟩
  have key : DomainMatcher.decide (some h) S = Verdict.Block ↔
      S.any (fun r => py_substr r h) = true := by
    simp only [DomainMatcher.decide]
    cases hAny : S.any (fun r => py_substr r h) <;> simp [hAny]
  rw [key, List.any_eq_true]

/-- C1 witness: the spec's own scenario, block set `{"doubleclick.net"}`
against hostname `ads.doubleclick.net`. -/
theorem c1_decide_block_iff_substring_witness :
    (DomainMatcher.decide (some "ads.doubleclick.net") ["doubleclick.net"] = Verdict.Block ↔
      ∃ r ∈ ["doubleclick.net"], py_substr r "ads.doubleclick.net" = true) ∧
    DomainMatcher.decide (some "ads.doubleclick.net") [] = Verdict.Allow ∧
    DomainMatcher.decide none ["doubleclick.net"] = Verdict.Allow :=
  c1_decide_block_iff_substring "ads.doubleclick.net" ["doubleclick.net"]

/-- C2 counterexample: closing the sole remaining tab does not close the
window; `remove_tab` removes it like any other tab and leaves the tab
sequence with zero members. -/
theorem c2_close_sole_tab_leaves_zero_tabs :
    (remove_tab { tabs := [{ url := "https://a.example", title := "A" }],
                  current := 0, urlbar := "https://a.example" } 0).tabs = [] := by
  decide

/-- C2 (amended): for a tab sequence of length `n > 1` and a valid index,
closing the tab at that index yields a sequence of length `n - 1`, keeps the
relative order of the remaining tabs (the result is a sublist of the
original), leaves the sequence non-empty, and leaves a valid active index. -/
theorem c2_close_tab_shrinks_and_keeps_valid_index (z : ZeronMain) (index : Int)
    (h0 : 0 ≤ index) (h1 : index < (z.tabs.length : Int)) (h2 : 1 < z.tabs.length)
    (hc0 : 0 ≤ z.current) (hc1 : z.current < (z.tabs.length : Int)) :
    (remove_tab z index).tabs.length = z.tabs.length - 1 ∧
    List.Sublist (remove_tab z index).tabs z.tabs ∧
    (remove_tab z index).tabs ≠ [] ∧
    0 ≤ (remove_tab z index).current ∧
    (remove_tab z index).current < ((remove_tab z index).tabs.length : Int) := by
  have hguard : ¬ (index < 0 ∨ (z.tabs.length : Int) ≤ index) := by
    push_neg
    exact ⟨h0, h1⟩
  have hi : index.toNat < z.tabs.length := by omega
  have hlen : (z.tabs.eraseIdx index.toNat).length = z.tabs.length - 1 := by
    rw [List.length_eraseIdx, if_pos hi]
  unfold remove_tab
  rw [if_neg hguard]
  dsimp only
  refine ⟨hlen, List.eraseIdx_sublist _ _, ?_, ?_, ?_⟩
  · intro hnil
    have h0len := congrArg List.length hnil
    simp only [List.length_nil] at h0len
    omega
  · split_ifs <;> omega
  · split_ifs <;> omega

/-- C2 witness: closing the second of two tabs. -/
theorem c2_close_tab_shrinks_and_keeps_valid_index_witness :
    (remove_tab { tabs := [{ url := "https://a.example", title := "A" },
                           { url := "https://b.example", title := "B" }],
                  current := 0, urlbar := "https://a.example" } 1).tabs.length = 1 ∧
    List.Sublist
      (remove_tab { tabs := [{ url := "https://a.example", title := "A" },
                             { url := "https://b.example", title := "B" }],
                    current := 0, urlbar := "https://a.example" } 1).tabs
      [{ url := "https://a.example", title := "A" },
       { url := "https://b.example", title := "B" }] ∧
    (remove_tab { tabs := [{ url := "https://a.example", title := "A" },
                           { url := "https://b.example", title := "B" }],
                  current := 0, urlbar := "https://a.example" } 1).tabs ≠ [] ∧
    0 ≤ (remove_tab { tabs := [{ url := "https://a.example", title := "A" },
                               { url := "https://b.example", title := "B" }],
                      current := 0, urlbar := "https://a.example" } 1).current ∧
    (remove_tab { tabs := [{ url := "https://a.example", title := "A" },
                           { url := "https://b.example", title := "B" }],
                  current := 0, urlbar := "https://a.example" } 1).current <
      ((remove_tab { tabs := [{ url := "https://a.example", title := "A" },
                              { url := "https://b.example", title := "B" }],
                     current := 0, urlbar := "https://a.example" } 1).tabs.length : Int) :=
  c2_close_tab_shrinks_and_keeps_valid_index
    { tabs := [{ url := "https://a.example", title := "A" },
               { url := "https://b.example", title := "B" }],
      current := 0, urlbar := "https://a.example" } 1
    (by decide) (by decide) (by decide) (by decide) (by decide)

/-- C3 counterexample: after a navigation on a 2000-entry in-memory history,
the exit-time save writes the full in-memory list of 2001 entries, exceeding
the 2000-entry cap the claim asserts for every write. -/
theorem c3_exit_save_exceeds_history_cap :
    2000 <
      (on_exit_history
        (on_view_url_changed (List.replicate 2000 "https://example.com")
          "https://example.org").1).length := by
  simp only [on_exit_history, on_view_url_changed, List.length_cons,
    List.length_replicate]
  omega

/-- C3 (amended): every navigated URL is inserted at position 0 of the
in-memory history; the per-navigation save writes the 2000 most recent
entries and hence never exceeds 2000; the exit-time save writes the full
in-memory list unchanged (and so can exceed 2000). -/
theorem c3_history_prepend_and_nav_cap (hist : List String) (url : String) :
    (on_view_url_changed hist url).1 = url :: hist ∧
    (on_view_url_changed hist url).2 = (url :: hist).take 2000 ∧
    (on_view_url_changed hist url).2.length ≤ 2000 ∧
    on_exit_history ((on_view_url_changed hist url).1) = url :: hist :=
  ⟨rfl, rfl, List.length_take_le 2000 (url :: hist), rfl⟩

/-- C4 counterexample: after adding a 151st bookmark to a full 150-entry
list, the exit-time save writes the full in-memory list of 151 entries,
exceeding the 150-entry cap the claim asserts for every write. -/
theorem c4_exit_save_exceeds_bookmark_cap :
    150 <
      (on_exit_bookmarks
        (add_bookmark_current (List.replicate 150 { title := "t", url := "https://u" })
          "p" "https://v").1).length := by
  simp only [on_exit_bookmarks, add_bookmark_current, List.length_cons,
    List.length_replicate]
  omega

/-- C4 (amended): every bookmark insertion is at position 0 of the in-memory
list; the add-time save writes at most 150 entries and, on a full 150-entry
list, keeps the new entry and the 149 newest old ones, dropping the oldest;
the exit-time save writes the full in-memory list unchanged (and so can
exceed 150). -/
theorem c4_bookmark_prepend_and_add_cap (bms : List Bookmark) (pageTitle url : String)
    (h150 : bms.length = 150) :
    (add_bookmark_current bms pageTitle url).1 =
      { title := py_or pageTitle url, url := url } :: bms ∧
    (add_bookmark_current bms pageTitle url).2.length = 150 ∧
    (add_bookmark_current bms pageTitle url).2 =
      { title := py_or pageTitle url, url := url } :: bms.take 149 ∧
    on_exit_bookmarks ((add_bookmark_current bms pageTitle url).1) =
      { title := py_or pageTitle url, url := url } :: bms := by
  refine ⟨rfl, ?_, ?_, rfl⟩
  · show (List.take 150 ({ title := py_or pageTitle url, url := url } :: bms)).length = 150
    rw [List.length_take, List.length_cons, h150]
    omega
  · show List.take (149 + 1) ({ title := py_or pageTitle url, url := url } :: bms) = _
    rw [List.take_succ_cons]

/-- C4 witness: adding a 151st bookmark to a full 150-entry list. -/
theorem c4_bookmark_prepend_and_add_cap_witness :
    (add_bookmark_current (List.replicate 150 { title := "t", url := "https://u" })
        "p" "https://v").1 =
      { title := py_or "p" "https://v", url := "https://v" } ::
        List.replicate 150 { title := "t", url := "https://u" } ∧
    (add_bookmark_current (List.replicate 150 { title := "t", url := "https://u" })
        "p" "https://v").2.length = 150 ∧
    (add_bookmark_current (List.replicate 150 { title := "t", url := "https://u" })
        "p" "https://v").2 =
      { title := py_or "p" "https://v", url := "https://v" } ::
        (List.replicate 150 { title := "t", url := "https://u" }).take 149 ∧
    on_exit_bookmarks
        ((add_bookmark_current (List.replicate 150 { title := "t", url := "https://u" })
          "p" "https://v").1) =
      { title := py_or "p" "https://v", url := "https://v" } ::
        List.replicate 150 { title := "t", url := "https://u" } :=
  c4_bookmark_prepend_and_add_cap
    (List.replicate 150 { title := "t", url := "https://u" }) "p" "https://v" (by simp)

/-- C5: startup opens exactly one tab, at the configured home-page URL, with
active index 0.  The repository has no session persistence, so the
no-session / empty-session path of the claim is the only startup path. -/
theorem c5_startup_single_home_tab (home : String) :
    (startup home).tabs = [{ url := home, title := "New" }] ∧
    (startup home).current = 0 :=
  ⟨rfl, rfl⟩

/-- C6: `load_json` returns the default unchanged when the file is absent or
fails to parse; it is a total function, so no exception reaches the caller. -/
theorem c6_load_json_defaults_on_failure (α : Type) (d : α) (e : String) :
    load_json none d = d ∧ load_json (some (Except.error e)) d = d :=
  ⟨rfl, rfl⟩

/-- C7 counterexample: loading a settings document that lacks `home_page`
leaves the in-memory settings exactly equal to the loaded document, with no
`home_page` entry merged in from the defaults. -/
theorem c7_load_does_not_merge_defaults :
    loadSettings (some (Except.ok [("theme", SVal.s "light")])) =
      [("theme", SVal.s "light")] ∧
    (loadSettings (some (Except.ok [("theme", SVal.s "light")]))).lookup "home_page" =
      none :=
  ⟨rfl, by decide⟩

/-- C7 (amended): a successfully parsed settings document replaces the
defaults wholesale (so unknown keys are preserved and missing keys are not
backfilled); a key missing from the document falls back to the call-site
default only at read time, through `dict.get`; the full default document is
used only when the file is absent or unparsable. -/
theorem c7_settings_wholesale_with_read_fallback (d : List (String × SVal))
    (k : String) (v : SVal) (e : String) (hk : d.lookup k = none) :
    loadSettings (some (Except.ok d)) = d ∧
    dictGet d k v = v ∧
    loadSettings none = DEFAULT_SETTINGS ∧
    loadSettings (some (Except.error e)) = DEFAULT_SETTINGS := by
  refine ⟨rfl, ?_, rfl, rfl⟩
  simp [dictGet, hk]

/-- C7 witness: a document holding only `theme`, read at key `home_page`. -/
theorem c7_settings_wholesale_with_read_fallback_witness :
    loadSettings (some (Except.ok [("theme", SVal.s "light")])) =
      [("theme", SVal.s "light")] ∧
    dictGet [("theme", SVal.s "light")] "home_page"
        (SVal.s "https://www.google.com") = SVal.s "https://www.google.com" ∧
    loadSettings none = DEFAULT_SETTINGS ∧
    loadSettings (some (Except.error "corrupt")) = DEFAULT_SETTINGS :=
  c7_settings_wholesale_with_read_fallback
    [("theme", SVal.s "light")] "home_page" (SVal.s "https://www.google.com")
    "corrupt" (by decide)

/-- C8 counterexample: a 47-character title is truncated to its first 46
characters for the tab label, with no ellipsis marker added. -/
theorem c8_truncation_has_no_ellipsis :
    (on_load_finished_title (String.mk (List.replicate 47 'a')) "https://u").2.1 =
      String.mk (List.replicate 46 'a') ∧
    (on_load_finished_title (String.mk (List.replicate 47 'a')) "https://u").2.1 ≠
      String.mk (List.replicate 47 'a') ∧
    py_contains_char
      ((on_load_finished_title (String.mk (List.replicate 47 'a')) "https://u").2.1)
      '…' = false := by
  refine ⟨?_, ?_, ?_⟩ <;> decide

/-- C8 (amended): on `loadFinished` the title is the page's reported title,
falling back to the URL string when the title is empty; the tab-widget label
is the plain slice `title[:46]` and the tab-strip button label the plain
slice `title[:26]`, with no ellipsis marker; the untruncated title is what
`add_bookmark_current` stores (history stores bare URLs). -/
theorem c8_title_fallback_and_slice (pageTitle url : String) (h : pageTitle ≠ "") :
    on_load_finished_title pageTitle url =
      (pageTitle, pyTake pageTitle 46, pyTake pageTitle 26) ∧
    on_load_finished_title "" url = (url, pyTake url 46, pyTake url 26) ∧
    (pyTake pageTitle 46).length ≤ 46 ∧
    (pyTake pageTitle 26).length ≤ 26 ∧
    (add_bookmark_current [] pageTitle url).1 = [{ title := pageTitle, url := url }] := by
  have hor : py_or pageTitle url = pageTitle := by simp [py_or, h]
  refine ⟨?_, ?_, ?_, ?_, ?_⟩
  · simp [on_load_finished_title, hor]
  · simp [on_load_finished_title, py_or]
  · exact List.length_take_le 46 pageTitle.data
  · exact List.length_take_le 26 pageTitle.data
  · simp [add_bookmark_current, hor]

/-- C8 witness: a page with a short title. -/
theorem c8_title_fallback_and_slice_witness :
    on_load_finished_title "Example Domain" "https://example.com" =
      ("Example Domain", pyTake "Example Domain" 46, pyTake "Example Domain" 26) ∧
    on_load_finished_title "" "https://example.com" =
      ("https://example.com", pyTake "https://example.com" 46,
        pyTake "https://example.com" 26) ∧
    (pyTake "Example Domain" 46).length ≤ 46 ∧
    (pyTake "Example Domain" 26).length ≤ 26 ∧
    (add_bookmark_current [] "Example Domain" "https://example.com").1 =
      [{ title := "Example Domain", url := "https://example.com" }] :=
  c8_title_fallback_and_slice "Example Domain" "https://example.com" (by decide)

/-- C9 counterexample: switching to the already-current tab does not refresh
the address bar.  `setCurrentIndex` does not emit `currentChanged` when the
index is unchanged, so user-typed URL-bar text stays in place instead of
being replaced by the tab's URL. -/
theorem c9_switch_to_current_tab_keeps_urlbar :
    (switch_to_tab { tabs := [{ url := "https://a.example", title := "A" }],
                     current := 0, urlbar := "user typed" } 0).urlbar = "user typed" ∧
    (switch_to_tab { tabs := [{ url := "https://a.example", title := "A" }],
                     current := 0, urlbar := "user typed" } 0).urlbar ≠
      "https://a.example" := by
  refine ⟨?_, ?_⟩ <;> decide

/-- C9 (amended): `switch_to_tab` is a no-op (tab sequence, active index and
URL bar all unchanged) when the index is out of the current bounds, and also
when the index already is the active one, since no `currentChanged` signal
fires then; when the index is in bounds and differs from the active index,
it makes that tab active and refreshes the URL bar to that tab's URL. -/
theorem c9_switch_to_tab_activate_and_refresh_on_change (z : ZeronMain) (index : Int) :
    switch_to_tab z index =
      if 0 ≤ index ∧ index < (z.tabs.length : Int) then
        if index = z.current then z
        else
          { tabs := z.tabs, current := index,
            urlbar := (z.tabs.getD index.toNat { url := "", title := "" }).url }
      else z := by
  unfold switch_to_tab on_tab_switched
  dsimp only
  split_ifs with h1 h2
  · rfl
  · rfl
  · rfl

/-- C10: on the stripped URL-bar text, an empty text initiates no load; a
text with a space or with no dot loads the Google search URL for it with
spaces replaced by `+`; otherwise the text itself is loaded when it starts
with "http", and with "https://" prepended when it does not. -/
theorem c10_urlbar_dispatch (t : String) (hs : py_strip t = t) :
    (t = "" → load_from_urlbar t = none) ∧
    (t ≠ "" → py_contains_char t ' ' = true ∨ py_contains_char t '.' = false →
      load_from_urlbar t =
        some ("https://www.google.com/search?q=" ++ py_replace_space t)) ∧
    (py_contains_char t ' ' = false → py_contains_char t '.' = true →
      py_startswith t "http" = true → load_from_urlbar t = some t) ∧
    (py_contains_char t ' ' = false → py_contains_char t '.' = true →
      py_startswith t "http" = false →
      load_from_urlbar t = some ("https://" ++ t)) := by
  refine ⟨?_, ?_, ?_, ?_⟩
  · intro h0
    subst h0
    decide
  · intro hne hor
    have hcond : (py_contains_char t ' ' || !(py_contains_char t '.')) = true := by
      rcases hor with h | h <;> simp [h]
    simp [load_from_urlbar, hs, hne, hcond]
  · intro hsp hdot hhttp
    have hne : t ≠ "" := by
      intro h0
      rw [h0] at hdot
      simp [py_contains_char] at hdot
    simp [load_from_urlbar, hs, hne, hsp, hdot, hhttp]
  · intro hsp hdot hhttp
    have hne : t ≠ "" := by
      intro h0
      rw [h0] at hdot
      simp [py_contains_char] at hdot
    simp [load_from_urlbar, hs, hne, hsp, hdot, hhttp]

/-- C10 witness: the text "hello world" is sent to Google search with the
space turned into `+`. -/
theorem c10_urlbar_dispatch_witness :
    load_from_urlbar "hello world" =
      some "https://www.google.com/search?q=hello+world" :=
  (((c10_urlbar_dispatch "hello world" (by decide)).2.1
      (by decide) (Or.inl (by decide))).trans (by decide))

end Zeron
